import Mathlib

/-!
Shallow embedding of `src/waveform_analysis.py` (class `WaveformAnalyzer` and
`main`), together with theorems settling the specification claims about it.

The program is a batch pipeline: directory scan → keyword categorization →
audio decode → plot → PDF write.  The scan and categorization logic is pure
and embedded directly; filesystem traversal, audio decoding and the plotting
library are external effects and are modelled as explicit inputs (the walk is
a list of files, decoding is an oracle returning `Except`), with matplotlib's
"x and y must have same first dimension" failure mode modelled by an explicit
length check in `plotXY`.
-/

namespace Waveform

/-- The test `listStartsWith pat s` : the char list `s` starts with `pat`. -/
def listStartsWith : List Char → List Char → Bool
  | [], _ => true
  | _ :: _, [] => false
  | p :: ps, c :: cs => p == c && listStartsWith ps cs

/-- The test `listContainsSub pat s` : `pat` occurs as a contiguous run inside `s`
(Python's `pat in s` on strings). -/
def listContainsSub (pat : List Char) : List Char → Bool
  | [] => listStartsWith pat []
  | c :: cs => listStartsWith pat (c :: cs) || listContainsSub pat cs

/-- The lowercased character sequence of a string (Python `s.lower()`). -/
def lowerChars (s : String) : List Char := s.data.map Char.toLower

/-- The test `strEndsWith s suf` : the name `s` ends with `suf`; this is how a file
name matches the glob pattern `*.<ext>` used by `Path.rglob` (line 28). -/
def strEndsWith (s suf : String) : Bool :=
  listStartsWith suf.data.reverse s.data.reverse

/-- A file produced by the recursive directory walk: its base name
(`file_path.name`) and its full path (`str(file_path)`). -/
structure AFile where
  name : String
  fullPath : String
  deriving DecidableEq

/-- Keywords of the real branch (line 34). -/
def realKeywords : List String := ["real", "genuine", "original", "natural"]

/-- Keywords of the fake branch (line 37). -/
def fakeKeywords : List String := ["fake", "synthetic", "generated", "artificial"]

/-- The check `any(keyword in filename or keyword in file_path_str.lower() for keyword in kws)`
where `filename = file_path.name.lower()` (lines 33-34 and 36-37). -/
def matchesAny (kws : List String) (f : AFile) : Bool :=
  kws.any (fun k =>
    listContainsSub k.data (lowerChars f.name) ||
    listContainsSub k.data (lowerChars f.fullPath))

/-- The two sequences `self.real_files` / `self.fake_files`. -/
structure ScanState where
  real_files : List AFile
  fake_files : List AFile
  deriving DecidableEq

/-- The body of the scan loop (lines 29-44): real keywords first, then fake
keywords, else round-robin by current sequence length (tie goes to real). -/
def categorizeFile (st : ScanState) (f : AFile) : ScanState :=
  if matchesAny realKeywords f then
    { st with real_files := st.real_files ++ [f] }
  else if matchesAny fakeKeywords f then
    { st with fake_files := st.fake_files ++ [f] }
  else if st.real_files.length ≤ st.fake_files.length then
    { st with real_files := st.real_files ++ [f] }
  else
    { st with fake_files := st.fake_files ++ [f] }

/-- The extension suffixes corresponding to the patterns
`['*.wav', '*.mp3', '*.flac', '*.m4a']` (line 25): a name matches pattern
`*.<ext>` exactly when it ends with `.<ext>`. -/
def audio_extensions : List String := [".wav", ".mp3", ".flac", ".m4a"]

/-- The enumeration order of the double loop (lines 27-28): for each
extension pattern in the fixed order, `rglob` yields the walk's files with
that extension in traversal order.  `walk` is the recursive directory walk
of the dataset root, an input to the model. -/
def discoveredFiles (walk : List AFile) : List AFile :=
  audio_extensions.flatMap (fun ext => walk.filter (fun f => strEndsWith f.name ext))

/-- The scan `find_audio_files` (lines 21-52): fold the categorization over the
discovered files, starting from two empty sequences. -/
def find_audio_files (walk : List AFile) : ScanState :=
  (discoveredFiles walk).foldl categorizeFile ⟨[], []⟩

/-- The scan's return value (lines 49-52): `False` iff both sequences ended
empty. -/
def find_success (st : ScanState) : Bool :=
  !(st.real_files.isEmpty && st.fake_files.isEmpty)

/-- A decoded audio signal as returned by `librosa.load(path, sr=None)`:
amplitude samples (floats, modelled as rationals; no claim constrains their
values) and the native sample rate. -/
structure Audio where
  samples : List ℚ
  sr : ℕ
  deriving DecidableEq

/-- A decoding oracle: what `librosa.load` returns for each file, `Except`
modelling a raised exception. -/
def Decoder : Type := AFile → Except String Audio

/-- The target rate `min(sr_real, sr_fake, 22050)` (line 150). -/
def target_sr (sr_real sr_fake : ℕ) : ℕ := min (min sr_real sr_fake) 22050

/-- Modelled from the spec: `librosa.resample` is an external library call,
absent from the source; the spec states the resampled output's sample count
equals the input's decoded length scaled by the resampling ratio
`target_sr / orig_sr` (rounded up to a whole sample, which is the scaling the
library documents).  Sample values are not constrained by the spec and are
abstracted to zeros. -/
def resample (a : Audio) (tsr : ℕ) : Audio :=
  { samples := List.replicate ((a.samples.length * tsr + a.sr - 1) / a.sr) 0
    sr := tsr }

/-- Lines 151-154: a signal is resampled only when its native rate differs
from the target rate. -/
def resampleStep (a : Audio) (tsr : ℕ) : Audio :=
  if a.sr ≠ tsr then resample a tsr else a

/-- Lines 150-154 as a whole: compute the target rate and conditionally
resample both decoded signals. -/
def resampledPair (a b : Audio) : Audio × Audio :=
  let tsr := target_sr a.sr b.sr
  (resampleStep a tsr, resampleStep b tsr)

/-- The time axis `np.arange(n) / sr`, with `n` entries. -/
def timeAxis (n : ℕ) (sr : ℕ) : List ℚ :=
  (List.range n).map (fun (i : ℕ) => (i : ℚ) / (sr : ℚ))

/-- The message of matplotlib's `ValueError` on mismatched plot inputs. -/
def dimMsg : String := "x and y must have same first dimension"

/-- The call `axes[k].plot(x, y)`: matplotlib raises `ValueError` when the two
sequences have different lengths, and draws the line otherwise. -/
def plotXY (x y : List ℚ) : Except String Unit :=
  if x.length = y.length then Except.ok () else Except.error dimMsg

/-- The PDF written by the detailed renderer, described by the quantities
that determined its panels. -/
structure DetailedPdf where
  targetSr : ℕ
  realLen : ℕ
  fakeLen : ℕ
  deriving DecidableEq

/-- Lines 150-177 of the `try:` block, after both decodes succeeded:
resample to the common target rate, plot the overlay (its time axis is sized
by the real signal, line 156, so the real line always fits and the fake line
raises on a length mismatch), plot the 2-second zoom
(`real_audio[:zoom_samples]` is Python slicing, which clamps, while the
x axis always has `int(2 * target_sr)` entries, lines 163-166), and draw the
two histograms, which accept any lengths. -/
def detailed_plots (a b : Audio) : Except String DetailedPdf :=
  let tsr := target_sr a.sr b.sr
  let ra := (resampledPair a b).1
  let fb := (resampledPair a b).2
  let zoom_samples := 2 * tsr
  match plotXY (timeAxis ra.samples.length tsr) ra.samples with
  | Except.error e => Except.error e
  | Except.ok _ =>
    match plotXY (timeAxis ra.samples.length tsr) fb.samples with
    | Except.error e => Except.error e
    | Except.ok _ =>
      match plotXY (timeAxis zoom_samples tsr) (ra.samples.take zoom_samples) with
      | Except.error e => Except.error e
      | Except.ok _ =>
        match plotXY (timeAxis zoom_samples tsr) (fb.samples.take zoom_samples) with
        | Except.error e => Except.error e
        | Except.ok _ => Except.ok ⟨tsr, ra.samples.length, fb.samples.length⟩

/-- The whole body of the `try:` block of `create_detailed_waveform_analysis`
(lines 147-181): decode both heads (lines 147-148), then resample, plot and
save (`detailed_plots`); an exception at any point aborts the rest of the
block. -/
def detailed_body (dec : Decoder) (rf ff : AFile) : Except String DetailedPdf :=
  match dec rf, dec ff with
  | Except.error e, _ => Except.error e
  | Except.ok _, Except.error e => Except.error e
  | Except.ok a, Except.ok b => detailed_plots a b

/-- Outcome of `create_detailed_waveform_analysis`: skipped at the guard
(lines 137-139), exception caught and logged (lines 182-183), or PDF saved
(lines 178-181). -/
inductive DetailedOutcome where
  | skipped
  | errorLogged (msg : String)
  | written (pdf : DetailedPdf)
  deriving DecidableEq

/-- The renderer `create_detailed_waveform_analysis` (lines 135-183): return at the guard
unless both sequences are non-empty, then run the body with every exception
caught. -/
def create_detailed_waveform_analysis (dec : Decoder) (st : ScanState) :
    DetailedOutcome :=
  match st.real_files.head?, st.fake_files.head? with
  | some rf, some ff =>
    match detailed_body dec rf ff with
    | Except.ok pdf => DetailedOutcome.written pdf
    | Except.error e => DetailedOutcome.errorLogged e
  | _, _ => DetailedOutcome.skipped

/-- Whether a panel of the comparison figure got its line drawn or stayed
blank. -/
inductive PanelState where
  | blank
  | populated
  deriving DecidableEq

/-- Whether a decode succeeded. -/
def decodeOk (r : Except String Audio) : Bool :=
  match r with
  | Except.ok _ => true
  | Except.error _ => false

/-- The figure written by `create_waveform_comparison`: the three audio
panels (the fourth panel is the text summary) and the unconditional save. -/
structure ComparisonResult where
  combinedPanel : PanelState
  realPanel : PanelState
  fakePanel : PanelState
  savedPdf : Bool
  deriving DecidableEq

/-- The renderer `create_waveform_comparison` (lines 54-133): pick the head of each
sequence when present; each of the three plot blocks runs only when its
example exists and is guarded by its own `try/except`, so a decode failure
leaves just that panel blank; inside a block the plotted x and y sequences
always have equal lengths (the time axes are built from the decoded lengths,
and `audio[:max_samples]` slices to `max_samples = min(len, 5*sr)` entries),
so only decoding can fail; `plt.savefig` runs unconditionally (line 130). -/
def create_waveform_comparison (dec : Decoder) (st : ScanState) :
    ComparisonResult :=
  let real_example := st.real_files.head?
  let fake_example := st.fake_files.head?
  let combined :=
    match real_example, fake_example with
    | some r, some f =>
      if decodeOk (dec r) && decodeOk (dec f) then PanelState.populated
      else PanelState.blank
    | _, _ => PanelState.blank
  let realP :=
    match real_example with
    | some r => if decodeOk (dec r) then PanelState.populated else PanelState.blank
    | none => PanelState.blank
  let fakeP :=
    match fake_example with
    | some f => if decodeOk (dec f) then PanelState.populated else PanelState.blank
    | none => PanelState.blank
  { combinedPanel := combined, realPanel := realP, fakePanel := fakeP,
    savedPdf := true }

/-- The result of one run of `main` (lines 186-193): whether the scan
succeeded and, when it did, the outcomes of the two renderer calls. -/
structure MainResult where
  scanOk : Bool
  comparison : Option ComparisonResult
  detailed : Option DetailedOutcome
  deriving DecidableEq

/-- The driver `main` (lines 186-193): scan, return immediately on failure, otherwise
run both renderers in order. -/
def main (dec : Decoder) (walk : List AFile) : MainResult :=
  let st := find_audio_files walk
  if find_success st then
    { scanOk := true
      comparison := some (create_waveform_comparison dec st)
      detailed := some (create_detailed_waveform_analysis dec st) }
  else
    { scanOk := false, comparison := none, detailed := none }

/-- The PDF files a run of `main` writes into `<root>/plots/`:
`waveform_analysis.pdf` whenever the comparison renderer runs (its save is
unconditional), `detailed_waveform_analysis.pdf` only when the detailed
renderer reaches its save. -/
def pdfsProduced (dec : Decoder) (walk : List AFile) : List String :=
  let m := main dec walk
  (match m.comparison with
   | some _ => ["waveform_analysis.pdf"]
   | none => []) ++
  (match m.detailed with
   | some (DetailedOutcome.written _) => ["detailed_waveform_analysis.pdf"]
   | _ => [])

/-- A decoding oracle for concrete runs: decoding always raises. -/
def decFail : Decoder := fun _ => Except.error "decode failure"

/-- A decoding oracle for concrete runs: `r.wav` decodes to 3 samples and
every other file to 4 samples, all at sample rate 1. -/
def decW : Decoder := fun f =>
  if f.name = "r.wav" then Except.ok ⟨[0, 0, 0], 1⟩
  else Except.ok ⟨[0, 0, 0, 0], 1⟩

/-! ### Helper lemmas about the scan fold -/

/-- One categorization step appends the file to exactly one of the two
sequences: the combined multiplicity of any file grows by its multiplicity
in the singleton `[x]`. -/
lemma categorize_count (st : ScanState) (x f : AFile) :
    (categorizeFile st x).real_files.count f + (categorizeFile st x).fake_files.count f
      = st.real_files.count f + st.fake_files.count f + (if x = f then 1 else 0) := by
  unfold categorizeFile
  split
  · simp [List.count_append, List.count_singleton']
    omega
  · split
    · simp [List.count_append, List.count_singleton']
      omega
    · split <;> (simp [List.count_append, List.count_singleton']; omega)

/-- Multiplicity bookkeeping for the whole fold. -/
lemma foldl_count (f : AFile) :
    ∀ (l : List AFile) (st : ScanState),
      (l.foldl categorizeFile st).real_files.count f
        + (l.foldl categorizeFile st).fake_files.count f
        = st.real_files.count f + st.fake_files.count f + l.count f := by
  intro l
  induction l with
  | nil => intro st; simp
  | cons x xs ih =>
    intro st
    simp only [List.foldl_cons, List.count_cons]
    rw [ih, categorize_count]
    by_cases hxf : x = f
    · simp [hxf]
      omega
    · simp [hxf]

/-- Each step either appends the file to the real sequence or leaves the
real sequence unchanged. -/
lemma categorize_real_cases (st : ScanState) (x : AFile) :
    (categorizeFile st x).real_files = st.real_files ++ [x]
      ∨ (categorizeFile st x).real_files = st.real_files := by
  unfold categorizeFile
  split
  · exact Or.inl rfl
  · split
    · exact Or.inr rfl
    · split
      · exact Or.inl rfl
      · exact Or.inr rfl

/-- Each step either appends the file to the fake sequence or leaves the
fake sequence unchanged. -/
lemma categorize_fake_cases (st : ScanState) (x : AFile) :
    (categorizeFile st x).fake_files = st.fake_files ++ [x]
      ∨ (categorizeFile st x).fake_files = st.fake_files := by
  unfold categorizeFile
  split
  · exact Or.inr rfl
  · split
    · exact Or.inl rfl
    · split
      · exact Or.inr rfl
      · exact Or.inl rfl

/-- The fold only ever appends to the real sequence, and the appended tail
is a sublist of the processed files. -/
lemma foldl_real_append (l : List AFile) :
    ∀ st : ScanState, ∃ t, (l.foldl categorizeFile st).real_files = st.real_files ++ t
      ∧ List.Sublist t l := by
  induction l with
  | nil => intro st; exact ⟨[], by simp, List.nil_sublist _⟩
  | cons x xs ih =>
    intro st
    obtain ⟨t, ht, hs⟩ := ih (categorizeFile st x)
    rcases categorize_real_cases st x with h | h
    · refine ⟨x :: t, ?_, List.Sublist.cons₂ x hs⟩
      rw [List.foldl_cons, ht, h, List.append_assoc]
      rfl
    · exact ⟨t, by rw [List.foldl_cons, ht, h], List.Sublist.cons x hs⟩

/-- The fold only ever appends to the fake sequence, and the appended tail
is a sublist of the processed files. -/
lemma foldl_fake_append (l : List AFile) :
    ∀ st : ScanState, ∃ t, (l.foldl categorizeFile st).fake_files = st.fake_files ++ t
      ∧ List.Sublist t l := by
  induction l with
  | nil => intro st; exact ⟨[], by simp, List.nil_sublist _⟩
  | cons x xs ih =>
    intro st
    obtain ⟨t, ht, hs⟩ := ih (categorizeFile st x)
    rcases categorize_fake_cases st x with h | h
    · refine ⟨x :: t, ?_, List.Sublist.cons₂ x hs⟩
      rw [List.foldl_cons, ht, h, List.append_assoc]
      rfl
    · exact ⟨t, by rw [List.foldl_cons, ht, h], List.Sublist.cons x hs⟩

/-- Membership in the real sequence is preserved by the rest of the fold. -/
lemma real_mem_foldl (f : AFile) (l : List AFile) (st : ScanState)
    (h : f ∈ st.real_files) : f ∈ (l.foldl categorizeFile st).real_files := by
  obtain ⟨t, ht, -⟩ := foldl_real_append l st
  rw [ht]
  exact List.mem_append_left _ h

/-- A file matching a real keyword lands in the real sequence when the fold
processes it. -/
lemma real_keyword_mem (f : AFile) (hreal : matchesAny realKeywords f = true)
    (l : List AFile) :
    ∀ st : ScanState, f ∈ l → f ∈ (l.foldl categorizeFile st).real_files := by
  induction l with
  | nil => intro st h; exact absurd h (List.not_mem_nil f)
  | cons x xs ih =>
    intro st hmem
    rcases List.mem_cons.mp hmem with rfl | hmem'
    · rw [List.foldl_cons]
      apply real_mem_foldl
      unfold categorizeFile
      rw [if_pos hreal]
      simp
    · exact ih _ hmem'

/-! ### Helper lemmas about the renderers -/

lemma timeAxis_length (n sr : ℕ) : (timeAxis n sr).length = n := by
  unfold timeAxis
  rw [List.length_map, List.length_range]

/-- The plot chain of the detailed renderer, evaluated: it succeeds exactly
when the two resampled signals have equal lengths and both reach 2 seconds
at the target rate, and every failure is matplotlib's dimension error. -/
lemma detailed_plots_eq (a b : Audio) :
    detailed_plots a b =
      (if (resampledPair a b).1.samples.length = (resampledPair a b).2.samples.length then
        if (resampledPair a b).1.samples.length < 2 * target_sr a.sr b.sr then
          Except.error dimMsg
        else if (resampledPair a b).2.samples.length < 2 * target_sr a.sr b.sr then
          Except.error dimMsg
        else
          Except.ok ⟨target_sr a.sr b.sr, (resampledPair a b).1.samples.length,
            (resampledPair a b).2.samples.length⟩
      else Except.error dimMsg) := by
  have p1 : plotXY
      (timeAxis (resampledPair a b).1.samples.length (target_sr a.sr b.sr))
      (resampledPair a b).1.samples = Except.ok () := by
    simp [plotXY, timeAxis_length]
  by_cases h12 : (resampledPair a b).1.samples.length = (resampledPair a b).2.samples.length
  · have p2 : plotXY
        (timeAxis (resampledPair a b).1.samples.length (target_sr a.sr b.sr))
        (resampledPair a b).2.samples = Except.ok () := by
      simp [plotXY, timeAxis_length, h12]
    by_cases h3 : (resampledPair a b).1.samples.length < 2 * target_sr a.sr b.sr
    · have p3 : plotXY
          (timeAxis (2 * target_sr a.sr b.sr) (target_sr a.sr b.sr))
          ((resampledPair a b).1.samples.take (2 * target_sr a.sr b.sr))
          = Except.error dimMsg := by
        simp [plotXY, timeAxis_length, List.length_take]
        omega
      rw [if_pos h12, if_pos h3]
      simp only [detailed_plots, p1, p2, p3]
    · have p3 : plotXY
          (timeAxis (2 * target_sr a.sr b.sr) (target_sr a.sr b.sr))
          ((resampledPair a b).1.samples.take (2 * target_sr a.sr b.sr))
          = Except.ok () := by
        simp [plotXY, timeAxis_length, List.length_take]
        omega
      by_cases h4 : (resampledPair a b).2.samples.length < 2 * target_sr a.sr b.sr
      · have p4 : plotXY
            (timeAxis (2 * target_sr a.sr b.sr) (target_sr a.sr b.sr))
            ((resampledPair a b).2.samples.take (2 * target_sr a.sr b.sr))
            = Except.error dimMsg := by
          simp [plotXY, timeAxis_length, List.length_take]
          omega
        rw [if_pos h12, if_neg h3, if_pos h4]
        simp only [detailed_plots, p1, p2, p3, p4]
      · have p4 : plotXY
            (timeAxis (2 * target_sr a.sr b.sr) (target_sr a.sr b.sr))
            ((resampledPair a b).2.samples.take (2 * target_sr a.sr b.sr))
            = Except.ok () := by
          simp [plotXY, timeAxis_length, List.length_take]
          omega
        rw [if_pos h12, if_neg h3, if_neg h4]
        simp only [detailed_plots, p1, p2, p3, p4]
  · have p2 : plotXY
        (timeAxis (resampledPair a b).1.samples.length (target_sr a.sr b.sr))
        (resampledPair a b).2.samples = Except.error dimMsg := by
      simp [plotXY, timeAxis_length, h12]
    rw [if_neg h12]
    simp only [detailed_plots, p1, p2]

/-- When both decodes succeed, the body of the `try:` block is the plot
chain. -/
lemma detailed_body_ok_decode (dec : Decoder) (rf ff : AFile) (a b : Audio)
    (ha : dec rf = Except.ok a) (hb : dec ff = Except.ok b) :
    detailed_body dec rf ff = detailed_plots a b := by
  unfold detailed_body
  rw [ha, hb]

/-! ### Claim theorems -/

/-- C1: every file discovered by the scan (`find_audio_files`) is appended to
exactly one of the two sequences `real_files` and `fake_files` — classification
is total and exclusive: for every file the combined multiplicity in the two
output sequences equals its multiplicity among the discovered files, so no
discovered file is placed in both sequences or in neither. -/
theorem scan_classification_total (walk : List AFile) (f : AFile) :
    (find_audio_files walk).real_files.count f
      + (find_audio_files walk).fake_files.count f
      = (discoveredFiles walk).count f := by
  unfold find_audio_files
  simpa using foldl_count f (discoveredFiles walk) ⟨[], []⟩

/-- C2: a file whose lowercased name and lowercased full path contain none of
the eight keywords is appended to whichever sequence is currently shorter,
with ties going to `real_files`; in particular, starting from two empty
sequences, of two unmatched files the first goes to `real_files` and the
second to `fake_files`. -/
theorem scan_unmatched_round_robin (st : ScanState) (f1 f2 : AFile)
    (h1 : matchesAny realKeywords f1 = false)
    (h2 : matchesAny fakeKeywords f1 = false)
    (h3 : matchesAny realKeywords f2 = false)
    (h4 : matchesAny fakeKeywords f2 = false) :
    (st.real_files.length ≤ st.fake_files.length →
      categorizeFile st f1 = { st with real_files := st.real_files ++ [f1] })
    ∧ (st.fake_files.length < st.real_files.length →
      categorizeFile st f1 = { st with fake_files := st.fake_files ++ [f1] })
    ∧ List.foldl categorizeFile ⟨[], []⟩ [f1, f2] = ⟨[f1], [f2]⟩ := by
  refine ⟨fun hle => ?_, fun hlt => ?_, ?_⟩
  · simp [categorizeFile, h1, h2, hle]
  · simp [categorizeFile, h1, h2, Nat.not_le.mpr hlt]
  · simp [categorizeFile, h1, h2, h3, h4]

/-- Witness for C2 at two concrete keyword-free files. -/
theorem scan_unmatched_round_robin_witness :
    matchesAny realKeywords ⟨"a.wav", "d/a.wav"⟩ = false
    ∧ List.foldl categorizeFile ⟨[], []⟩
        [⟨"a.wav", "d/a.wav"⟩, ⟨"b.wav", "d/b.wav"⟩] =
      ⟨[⟨"a.wav", "d/a.wav"⟩], [⟨"b.wav", "d/b.wav"⟩]⟩ :=
  ⟨by decide,
   (scan_unmatched_round_robin ⟨[], []⟩ ⟨"a.wav", "d/a.wav"⟩ ⟨"b.wav", "d/b.wav"⟩
      (by decide) (by decide) (by decide) (by decide)).2.2⟩

/-- C3: a directory holding exactly one file named `real_sample.wav` and one
named `fake_sample.wav` (with a root contributing no real keyword to the fake
file's path) is split with `real_sample.wav` in `real_files` and
`fake_sample.wav` in `fake_files`, by case-insensitive keyword match against
the filename and the full path. -/
theorem scan_real_fake_sample (p1 p2 : String)
    (h : matchesAny realKeywords ⟨"fake_sample.wav", p2⟩ = false) :
    find_audio_files [⟨"real_sample.wav", p1⟩, ⟨"fake_sample.wav", p2⟩] =
      ⟨[⟨"real_sample.wav", p1⟩], [⟨"fake_sample.wav", p2⟩]⟩ := by
  have e1 : find_audio_files [⟨"real_sample.wav", p1⟩, ⟨"fake_sample.wav", p2⟩]
      = categorizeFile ⟨[⟨"real_sample.wav", p1⟩], []⟩ ⟨"fake_sample.wav", p2⟩ := rfl
  rw [e1]
  have h2 : matchesAny fakeKeywords ⟨"fake_sample.wav", p2⟩ = true := rfl
  simp [categorizeFile, h, h2]

/-- Witness for C3 at a concrete keyword-free root `C:/data`. -/
theorem scan_real_fake_sample_witness :
    matchesAny realKeywords ⟨"fake_sample.wav", "C:/data/fake_sample.wav"⟩ = false
    ∧ find_audio_files
        [⟨"real_sample.wav", "C:/data/real_sample.wav"⟩,
         ⟨"fake_sample.wav", "C:/data/fake_sample.wav"⟩] =
      ⟨[⟨"real_sample.wav", "C:/data/real_sample.wav"⟩],
       [⟨"fake_sample.wav", "C:/data/fake_sample.wav"⟩]⟩ :=
  ⟨by decide, scan_real_fake_sample "C:/data/real_sample.wav"
      "C:/data/fake_sample.wav" (by decide)⟩

/-- C8, counterexample: the claim says the sequences are populated in
directory-traversal order regardless of file extension.  The scan loops over
the extension patterns first (`for ext in audio_extensions`, line 27), so in
a walk where `real_a.mp3` is encountered before `real_b.wav`, the sequence
`real_files` lists `real_b.wav` first — the earlier-walked file appears
later in its sequence. -/
theorem scan_walk_order_cex :
    (find_audio_files
        [⟨"real_a.mp3", "d/real_a.mp3"⟩, ⟨"real_b.wav", "d/real_b.wav"⟩]).real_files =
      [⟨"real_b.wav", "d/real_b.wav"⟩, ⟨"real_a.mp3", "d/real_a.mp3"⟩]
    ∧ (⟨"real_a.mp3", "d/real_a.mp3"⟩ : AFile) ≠ ⟨"real_b.wav", "d/real_b.wav"⟩ := by
  constructor
  · rfl
  · decide

/-- C8, amended: the two sequences are populated in extension-grouped
traversal order — each is a sublist of the discovery enumeration, which lists
the walk's files with extension `.wav` in traversal order, then `.mp3`, then
`.flac`, then `.m4a`; in particular two files of the same extension keep
their relative traversal order within a sequence, but a file of a later
extension pattern is appended after all files of earlier patterns. -/
theorem scan_extension_grouped_order (walk : List AFile) :
    List.Sublist (find_audio_files walk).real_files (discoveredFiles walk)
    ∧ List.Sublist (find_audio_files walk).fake_files (discoveredFiles walk) := by
  constructor
  · obtain ⟨t, ht, hs⟩ := foldl_real_append (discoveredFiles walk) ⟨[], []⟩
    unfold find_audio_files
    rw [ht]
    simpa using hs
  · obtain ⟨t, ht, hs⟩ := foldl_fake_append (discoveredFiles walk) ⟨[], []⟩
    unfold find_audio_files
    rw [ht]
    simpa using hs

/-- C9: a discovered file whose lowercased name or path contains both a real
keyword and a fake keyword is assigned to `real_files`: the real-keyword test
(lines 33-35) runs before the fake-keyword test (lines 36-38). -/
theorem scan_real_keyword_priority (walk : List AFile) (f : AFile)
    (h1 : matchesAny realKeywords f = true)
    (_h2 : matchesAny fakeKeywords f = true)
    (hmem : f ∈ discoveredFiles walk) :
    f ∈ (find_audio_files walk).real_files :=
  real_keyword_mem f h1 (discoveredFiles walk) ⟨[], []⟩ hmem

/-- Witness for C9 at a concrete file matching keywords of both categories. -/
theorem scan_real_keyword_priority_witness :
    matchesAny realKeywords ⟨"real_fake.wav", "d/real_fake.wav"⟩ = true
    ∧ matchesAny fakeKeywords ⟨"real_fake.wav", "d/real_fake.wav"⟩ = true
    ∧ (⟨"real_fake.wav", "d/real_fake.wav"⟩ : AFile) ∈
        (find_audio_files [⟨"real_fake.wav", "d/real_fake.wav"⟩]).real_files :=
  ⟨by decide, by decide,
   scan_real_keyword_priority [⟨"real_fake.wav", "d/real_fake.wav"⟩]
     ⟨"real_fake.wav", "d/real_fake.wav"⟩ (by decide) (by decide) (by decide)⟩

/-- C4: if the directory walk discovers zero audio files, both sequences end
empty, `find_audio_files` reports failure, `main` returns immediately,
neither plotting step runs and no PDF file is produced. -/
theorem scan_empty_halts (dec : Decoder) (walk : List AFile)
    (h : discoveredFiles walk = []) :
    find_audio_files walk = ⟨[], []⟩
    ∧ find_success (find_audio_files walk) = false
    ∧ main dec walk = ⟨false, none, none⟩
    ∧ pdfsProduced dec walk = [] := by
  have h1 : find_audio_files walk = ⟨[], []⟩ := by
    unfold find_audio_files
    rw [h]
    rfl
  refine ⟨h1, ?_, ?_, ?_⟩
  · rw [h1]
    rfl
  · unfold main
    rw [h1]
    rfl
  · unfold pdfsProduced main
    rw [h1]
    rfl

/-- Witness for C4 at a walk holding only a non-audio file. -/
theorem scan_empty_halts_witness :
    discoveredFiles [⟨"notes.txt", "d/notes.txt"⟩] = []
    ∧ main decFail [⟨"notes.txt", "d/notes.txt"⟩] = ⟨false, none, none⟩
    ∧ pdfsProduced decFail [⟨"notes.txt", "d/notes.txt"⟩] = [] :=
  ⟨by decide,
   (scan_empty_halts decFail [⟨"notes.txt", "d/notes.txt"⟩] (by decide)).2.2.1,
   (scan_empty_halts decFail [⟨"notes.txt", "d/notes.txt"⟩] (by decide)).2.2.2⟩

/-- C5: `create_detailed_waveform_analysis` runs only when both sequences
are non-empty — if either is empty it returns at the guard without writing
anything — and when it does run, an exception anywhere in its body is caught
and logged, surfacing as a logged error rather than propagating. -/
theorem detailed_guard_and_catch (dec : Decoder) (st : ScanState) :
    ((st.real_files = [] ∨ st.fake_files = []) →
      create_detailed_waveform_analysis dec st = DetailedOutcome.skipped)
    ∧ (∀ rf ff e, st.real_files.head? = some rf → st.fake_files.head? = some ff →
        detailed_body dec rf ff = Except.error e →
        create_detailed_waveform_analysis dec st = DetailedOutcome.errorLogged e) := by
  constructor
  · rintro (h | h)
    · simp [create_detailed_waveform_analysis, h]
    · cases hr : st.real_files <;>
        simp [create_detailed_waveform_analysis, h, hr]
  · intro rf ff e h1 h2 h3
    simp [create_detailed_waveform_analysis, h1, h2, h3]

/-- Witness for C5: one sequence empty skips; a decode failure inside the
body is logged. -/
theorem detailed_guard_and_catch_witness :
    create_detailed_waveform_analysis decFail ⟨[], [⟨"f.wav", "d/f.wav"⟩]⟩
      = DetailedOutcome.skipped
    ∧ create_detailed_waveform_analysis decFail
        ⟨[⟨"r.wav", "d/r.wav"⟩], [⟨"f.wav", "d/f.wav"⟩]⟩
      = DetailedOutcome.errorLogged "decode failure" :=
  ⟨(detailed_guard_and_catch decFail ⟨[], [⟨"f.wav", "d/f.wav"⟩]⟩).1 (Or.inl rfl),
   (detailed_guard_and_catch decFail
      ⟨[⟨"r.wav", "d/r.wav"⟩], [⟨"f.wav", "d/f.wav"⟩]⟩).2
     ⟨"r.wav", "d/r.wav"⟩ ⟨"f.wav", "d/f.wav"⟩ "decode failure" rfl rfl rfl⟩

/-- C6: in the detailed renderer the resampling target is always
`min(sr_real, sr_fake, 22050)`; each signal is resampled only if its native
rate differs from the target, and a resampled output's sample count is its
decoded length scaled by `target_sr / native_rate` (rounded up to a whole
sample). -/
theorem detailed_resample_target (a b : Audio) :
    target_sr a.sr b.sr = min (min a.sr b.sr) 22050
    ∧ (resampledPair a b).1.sr = target_sr a.sr b.sr
    ∧ (resampledPair a b).2.sr = target_sr a.sr b.sr
    ∧ (a.sr = target_sr a.sr b.sr → (resampledPair a b).1 = a)
    ∧ (b.sr = target_sr a.sr b.sr → (resampledPair a b).2 = b)
    ∧ (a.sr ≠ target_sr a.sr b.sr →
        (resampledPair a b).1.samples.length
          = (a.samples.length * target_sr a.sr b.sr + a.sr - 1) / a.sr)
    ∧ (b.sr ≠ target_sr a.sr b.sr →
        (resampledPair a b).2.samples.length
          = (b.samples.length * target_sr a.sr b.sr + b.sr - 1) / b.sr) := by
  refine ⟨rfl, ?_, ?_, ?_, ?_, ?_, ?_⟩
  · show (resampleStep a (target_sr a.sr b.sr)).sr = target_sr a.sr b.sr
    unfold resampleStep
    by_cases hne : a.sr = target_sr a.sr b.sr
    · rw [if_neg (not_not_intro hne)]
      exact hne
    · rw [if_pos hne]
      rfl
  · show (resampleStep b (target_sr a.sr b.sr)).sr = target_sr a.sr b.sr
    unfold resampleStep
    by_cases hne : b.sr = target_sr a.sr b.sr
    · rw [if_neg (not_not_intro hne)]
      exact hne
    · rw [if_pos hne]
      rfl
  · intro h
    show resampleStep a (target_sr a.sr b.sr) = a
    unfold resampleStep
    rw [if_neg (not_not_intro h)]
  · intro h
    show resampleStep b (target_sr a.sr b.sr) = b
    unfold resampleStep
    rw [if_neg (not_not_intro h)]
  · intro h
    show (resampleStep a (target_sr a.sr b.sr)).samples.length = _
    unfold resampleStep
    rw [if_pos h]
    simp [resample]
  · intro h
    show (resampleStep b (target_sr a.sr b.sr)).samples.length = _
    unfold resampleStep
    rw [if_pos h]
    simp [resample]

/-- Witness for C6: at native rates 2 and 1 the target is 1; the fake
signal (rate 1) is untouched and the real signal (8 samples at rate 2)
resamples to 4 samples. -/
theorem detailed_resample_target_witness :
    (resampledPair ⟨List.replicate 8 0, 2⟩ ⟨List.replicate 4 0, 1⟩).2
        = ⟨List.replicate 4 0, 1⟩
    ∧ (resampledPair ⟨List.replicate 8 0, 2⟩ ⟨List.replicate 4 0, 1⟩).1.samples.length
        = 4 := by
  constructor
  · exact (detailed_resample_target ⟨List.replicate 8 0, 2⟩
      ⟨List.replicate 4 0, 1⟩).2.2.2.2.1 (by decide)
  · have h := (detailed_resample_target ⟨List.replicate 8 0, 2⟩
      ⟨List.replicate 4 0, 1⟩).2.2.2.2.2.1 (by decide)
    rw [h]
    decide

/-- C7: with only real files present, `create_waveform_comparison` still
saves `waveform_analysis.pdf` — the save is unconditional and each plot block
is guarded on its own, so the real panel's state depends only on the real
decode while the combined and fake panels stay blank — and
`create_detailed_waveform_analysis` is skipped. -/
theorem comparison_real_only (dec : Decoder) (st : ScanState) (rf : AFile)
    (rest : List AFile) (h1 : st.real_files = rf :: rest)
    (h2 : st.fake_files = []) :
    (create_waveform_comparison dec st).savedPdf = true
    ∧ (create_waveform_comparison dec st).combinedPanel = PanelState.blank
    ∧ (create_waveform_comparison dec st).fakePanel = PanelState.blank
    ∧ (create_waveform_comparison dec st).realPanel
        = (if decodeOk (dec rf) then PanelState.populated else PanelState.blank)
    ∧ create_detailed_waveform_analysis dec st = DetailedOutcome.skipped := by
  refine ⟨?_, ?_, ?_, ?_, ?_⟩ <;>
    simp [create_waveform_comparison, create_detailed_waveform_analysis, h1, h2]

/-- Witness for C7: one real file whose decode fails — the PDF is still
saved, the real panel is simply blank, and the detailed step is skipped. -/
theorem comparison_real_only_witness :
    (create_waveform_comparison decFail ⟨[⟨"r.wav", "d/r.wav"⟩], []⟩).savedPdf = true
    ∧ (create_waveform_comparison decFail ⟨[⟨"r.wav", "d/r.wav"⟩], []⟩).realPanel
        = PanelState.blank
    ∧ create_detailed_waveform_analysis decFail ⟨[⟨"r.wav", "d/r.wav"⟩], []⟩
        = DetailedOutcome.skipped :=
  ⟨(comparison_real_only decFail ⟨[⟨"r.wav", "d/r.wav"⟩], []⟩
      ⟨"r.wav", "d/r.wav"⟩ [] rfl rfl).1,
   ((comparison_real_only decFail ⟨[⟨"r.wav", "d/r.wav"⟩], []⟩
      ⟨"r.wav", "d/r.wav"⟩ [] rfl rfl).2.2.2.1).trans rfl,
   (comparison_real_only decFail ⟨[⟨"r.wav", "d/r.wav"⟩], []⟩
      ⟨"r.wav", "d/r.wav"⟩ [] rfl rfl).2.2.2.2⟩

/-- C10: in the detailed renderer, whenever the two resampled signals have
different lengths, or either is shorter than 2 seconds at the target rate,
one of the overlay/zoom plot calls raises matplotlib's dimension error; the
exception is caught and logged and `detailed_waveform_analysis.pdf` is not
written. -/
theorem detailed_length_mismatch_error (dec : Decoder) (st : ScanState)
    (rf ff : AFile) (a b : Audio)
    (hr : st.real_files.head? = some rf) (hf : st.fake_files.head? = some ff)
    (ha : dec rf = Except.ok a) (hb : dec ff = Except.ok b)
    (hbad : (resampledPair a b).1.samples.length ≠ (resampledPair a b).2.samples.length
      ∨ (resampledPair a b).1.samples.length < 2 * target_sr a.sr b.sr
      ∨ (resampledPair a b).2.samples.length < 2 * target_sr a.sr b.sr) :
    create_detailed_waveform_analysis dec st = DetailedOutcome.errorLogged dimMsg
    ∧ ∀ p, create_detailed_waveform_analysis dec st ≠ DetailedOutcome.written p := by
  have hbody : detailed_body dec rf ff = Except.error dimMsg := by
    rw [detailed_body_ok_decode dec rf ff a b ha hb, detailed_plots_eq]
    split_ifs with h12 h3 h4 <;>
      first
        | rfl
        | (exfalso; rcases hbad with h | h | h <;> omega)
  have hmain : create_detailed_waveform_analysis dec st
      = DetailedOutcome.errorLogged dimMsg := by
    simp [create_detailed_waveform_analysis, hr, hf, hbody]
  refine ⟨hmain, fun p hp => ?_⟩
  rw [hmain] at hp
  exact DetailedOutcome.noConfusion hp

/-- Witness for C10: real decodes to 3 samples and fake to 4 at rate 1, so
the overlay plot's length check fails and the error is logged. -/
theorem detailed_length_mismatch_error_witness :
    create_detailed_waveform_analysis decW
        ⟨[⟨"r.wav", "d/r.wav"⟩], [⟨"f.wav", "d/f.wav"⟩]⟩
      = DetailedOutcome.errorLogged dimMsg :=
  (detailed_length_mismatch_error decW
    ⟨[⟨"r.wav", "d/r.wav"⟩], [⟨"f.wav", "d/f.wav"⟩]⟩
    ⟨"r.wav", "d/r.wav"⟩ ⟨"f.wav", "d/f.wav"⟩
    ⟨[0, 0, 0], 1⟩ ⟨[0, 0, 0, 0], 1⟩ rfl rfl rfl rfl (Or.inl (by decide))).1

end Waveform
